import Mathlib

/-!
# UploadPhotos page (`web/src/pages/UploadPhotos.jsx`)

A shallow embedding of the upload page's state and event handlers, followed by
the properties of the page that the specification states.

Conventions of the embedding

* The React state cells (`files`, `previews`, `isDragging`, `progress`,
  `error`, `success`, `isGeneratingPreview`) are the fields of `PageState`;
  the browser's pending `setTimeout` callbacks are kept in the extra field
  `timers`.
* Each handler is a function from the state it runs in to the state after all
  of its `setX` calls have been applied.  A handler reads the state cells
  through its closure; handlers are modelled as running in the closure of the
  latest render, so the closure's cells are the current ones.
* Asynchronous continuations (a worker message, a promise rejection, a timer)
  are separate events of `Event`.
* A JavaScript array of previews is a `List Preview`; writing past the end of
  an array grows it, which `arraySet` reproduces.
* Strings are Lean strings.  `startsWith`, `endsWith` and `includes` are only
  ever called with ASCII literals from the source, for which comparing code
  points and comparing UTF-16 code units agree.
-/

namespace UploadPhotos

/-! ## Data model -/

/-- A browser `File` handle, reduced to the two properties the page could
read: `file.name` and `file.type` (the MIME type, `""` when unknown). -/
structure File where
  name : String
  type : String
  deriving DecidableEq, Repr

/-- One slot of the `previews` array: `null` (the skeleton placeholder put
there by `Array(n).fill(null)`), an empty slot (what an out-of-range write
leaves between the old end and the written index), or an object URL. -/
inductive Preview where
  | null
  | empty
  | url (u : String)
  deriving DecidableEq, Repr

/-- The callbacks the page hands to `setTimeout`. -/
inductive Callback where
  /-- The callback `() => setError('')`. -/
  | clearError
  /-- The callback `() => { setSuccess(''); setFiles([]); setPreviews([]); setProgress(0); }`. -/
  | resetAfterUpload
  deriving DecidableEq, Repr

/-- A pending `setTimeout(callback, delay)`. -/
structure Timer where
  delay : Nat
  callback : Callback
  deriving DecidableEq, Repr

/-- The state cells of the component plus the pending timers. -/
structure PageState where
  files : List File
  previews : List Preview
  isDragging : Bool
  progress : Nat
  error : String
  success : String
  isGeneratingPreview : Bool
  timers : List Timer
  deriving DecidableEq, Repr

/-- The state of the first render: every `useState` initial value, no timer. -/
def initialState : PageState :=
  { files := [], previews := [], isDragging := false, progress := 0,
    error := "", success := "", isGeneratingPreview := false, timers := [] }

/-- The constant of `const [maxFiles] = useState(30)` (it has no setter). -/
def maxFiles : Nat := 30

/-- The constant `rawFileExtensions` declared at the top of the component. -/
def rawFileExtensions : List String :=
  [".raw", ".cr2", ".nef", ".orf", ".sr2",
   ".arw", ".rw2", ".dng", ".k25", ".kdc", ".mrw", ".pef", ".raf", ".3fr", ".fff"]

/-! ## String helpers -/

/-- The method `String.prototype.startsWith`. -/
def startsWith (s p : String) : Bool :=
  p.data.isPrefixOf s.data

/-- The method `String.prototype.endsWith`. -/
def endsWith (s p : String) : Bool :=
  p.data.reverse.isPrefixOf s.data.reverse

/-! ## `legacyCompressImage`: the target size of the main-thread downscale -/

/-- The value of `Math.round(a / b)` for non-negative integers `a`, `b` with
`b > 0`: the quotient rounded to the nearest integer, a tie going up.  (Image
dimensions are below `2^32`, so `a = side * 300` is an exact double and the
double quotient falls on the same side of every half-integer as the exact
one.) -/
def mathRoundDiv (a b : Nat) : Nat :=
  (2 * a + b) / (2 * b)

/-- The constant `MAX_SIZE` of `legacyCompressImage`. -/
def MAX_SIZE : Nat := 300

/-- The `(width, height)` that `legacyCompressImage` gives the resized canvas
for a decoded image of size `imgWidth` by `imgHeight`. -/
def legacyCompressImage (imgWidth imgHeight : Nat) : Nat × Nat :=
  let width := imgWidth
  let height := imgHeight
  if width > height ∧ width > MAX_SIZE then
    (MAX_SIZE, mathRoundDiv (height * MAX_SIZE) width)
  else if height > MAX_SIZE then
    (mathRoundDiv (width * MAX_SIZE) height, MAX_SIZE)
  else
    (width, height)

/-! ## The accepted-file filter -/

/-- The local `supportedImageTypes` of `isValidFileType`. -/
def supportedImageTypes : List String :=
  ["image/",
   "image/x-canon-cr2",
   "image/x-nikon-nef",
   "image/x-sony-arw",
   "image/x-adobe-dng",
   "image/x-fuji-raf",
   "image/x-panasonic-rw2"]

/-- The local `supportedVideoTypes` of `isValidFileType`. -/
def supportedVideoTypes : List String :=
  ["video/mp4",
   "video/quicktime",
   "video/x-msvideo",
   "video/x-matroska",
   "video/avi",
   "video/mpeg"]

/-- The function `isValidFileType`:
`supportedImageTypes.some(type => file.type.startsWith(type) ||
supportedVideoTypes.includes(file.type))`. -/
def isValidFileType (file : File) : Bool :=
  supportedImageTypes.any fun type =>
    startsWith file.type type || supportedVideoTypes.contains file.type

/-! ## Preview bookkeeping -/

/-- The assignment `arr[index] = v` on a JavaScript array: in range it
replaces the slot; past the end the array grows to length `index + 1`, the
slots in between staying empty. -/
def arraySet (arr : List Preview) (index : Nat) (v : Preview) : List Preview :=
  if index < arr.length then arr.set index v
  else arr ++ List.replicate (index - arr.length) Preview.empty ++ [v]

/-- The synchronous part of `generatePreviews(files)`: the loading flag is
raised and one `null` placeholder per file is appended to `previews`.  (The
hand-over to the worker, or the fallback loop, changes no state cell by
itself; their results arrive as later events.) -/
def generatePreviews (st : PageState) (files : List File) : PageState :=
  { st with
    isGeneratingPreview := true
    previews := st.previews ++ List.replicate files.length Preview.null }

/-- The `catch` block of `generatePreviews`: the previews are revoked and the
list emptied, and the error is set.  No timer is started. -/
def generatePreviewsFailed (st : PageState) : PageState :=
  { st with previews := [], error := "Failed to generate previews" }

/-- One iteration of the fallback loop of `generatePreviews` once its
`await legacyCompressImage(files[i])` has resolved to `url`:
`newPreviews[startIndex + i] = url`. -/
def legacyPreviewReady (st : PageState) (startIndex i : Nat) (url : String) : PageState :=
  { st with previews := arraySet st.previews (startIndex + i) (Preview.url url) }

/-- The worker's `onmessage` handler for a `BATCH_COMPLETE` message with the
given `results` (pairs `{ index, url }`). -/
def onBatchComplete (st : PageState) (results : List (Nat × String)) : PageState :=
  { st with
    previews := results.foldl (fun newPreviews r => arraySet newPreviews r.1 (Preview.url r.2))
      st.previews
    isGeneratingPreview := false }

/-- The worker's `onmessage` handler for an `ERROR` message: the error is set.
No timer is started. -/
def onWorkerError (st : PageState) : PageState :=
  { st with error := "Failed to generate some previews" }

/-! ## File selection -/

/-- The function `handleFiles(selectedFiles)`. -/
def handleFiles (st : PageState) (selectedFiles : List File) : PageState :=
  let validFiles := selectedFiles.filter isValidFileType
  let availableSlots : Int := (maxFiles : Int) - (st.files.length : Int)
  if availableSlots ≤ 0 then
    { st with
      error := "You can only upload at most " ++ toString maxFiles ++ " files"
      timers := st.timers ++ [{ delay := 3000, callback := Callback.clearError }] }
  else
    let filteredFiles := validFiles.take availableSlots.toNat
    let st1 : PageState :=
      if (validFiles.length : Int) > availableSlots then
        { st with
          error := "The exceeded " ++ toString availableSlots ++ " files have been removed"
          timers := st.timers ++ [{ delay := 3000, callback := Callback.clearError }] }
      else st
    generatePreviews { st1 with files := st1.files ++ filteredFiles } filteredFiles

/-- The handler `handleDragOver`. -/
def handleDragOver (st : PageState) : PageState :=
  { st with isDragging := true }

/-- The handler `handleDragLeave`. -/
def handleDragLeave (st : PageState) : PageState :=
  { st with isDragging := false }

/-- The handler `handleDrop`, for a drop carrying `droppedFiles`. -/
def handleDrop (st : PageState) (droppedFiles : List File) : PageState :=
  handleFiles { st with isDragging := false } droppedFiles

/-- The `onClick` of the Clear button. -/
def clearClicked (st : PageState) : PageState :=
  { st with files := [], previews := [], progress := 0 }

/-- The `disabled` attribute shared by the Clear and the upload button:
`files.length === 0 || progress > 0`. -/
def buttonsDisabled (st : PageState) : Bool :=
  st.files.length == 0 || decide (st.progress > 0)

/-! ## Upload -/

/-- What the `try` block of `handleUpload` can meet after it has posted the
form. -/
inductive UploadOutcome where
  /-- The call of `fetch` rejected with an error whose `message` is given. -/
  | fetchRejected (message : String)
  /-- The response arrived with `response.ok` false. -/
  | notOk
  /-- The call `response.json()` rejected with an error whose `message` is given. -/
  | jsonRejected (message : String)
  /-- The body parsed but has no `data` object: reading `result.data.successful`
  throws an error whose `message` is given, after `setProgress(100)`. -/
  | noData (message : String)
  /-- The body parsed, with `data.successful` and `data.total` the given counts
  (a template literal prints a count as its decimal numeral). -/
  | ok (successful total : Nat)
  deriving DecidableEq, Repr

/-- The expression `err.message || 'Upload failed, please try again'`. -/
def errorMessageOf (message : String) : String :=
  if message = "" then "Upload failed, please try again" else message

/-- The `catch` block of `handleUpload` for an error with the given message. -/
def uploadFailed (st : PageState) (message : String) : PageState :=
  { st with
    error := errorMessageOf message
    timers := st.timers ++ [{ delay := 3000, callback := Callback.clearError }] }

/-- The function `handleUpload`, run to completion against the given outcome of
the request.  (None of its continuations reads a state cell, so the state it
leaves does not depend on when the response arrives.) -/
def handleUpload (st : PageState) (outcome : UploadOutcome) : PageState :=
  if st.files.length = 0 then
    { st with
      error := "Please select photos to upload"
      timers := st.timers ++ [{ delay := 3000, callback := Callback.clearError }] }
  else
    let st0 := { st with progress := 0 }
    match outcome with
    | .fetchRejected message => uploadFailed st0 message
    | .notOk => uploadFailed st0 "Batch upload failed"
    | .jsonRejected message => uploadFailed st0 message
    | .noData message => uploadFailed { st0 with progress := 100 } message
    | .ok successful total =>
      { st0 with
        progress := 100
        success := "Successfully uploaded " ++ toString successful ++ " of " ++
          toString total ++ " photos!"
        timers := st0.timers ++ [{ delay := 2000, callback := Callback.resetAfterUpload }] }

/-! ## Timers -/

/-- Running a timer callback. -/
def runCallback (st : PageState) : Callback → PageState
  | .clearError => { st with error := "" }
  | .resetAfterUpload => { st with success := "", files := [], previews := [], progress := 0 }

/-- The `i`-th pending timer fires: it leaves the queue and its callback runs.
Nothing happens when there is no such timer. -/
def timerFires (st : PageState) (i : Nat) : PageState :=
  match st.timers.get? i with
  | none => st
  | some t => runCallback { st with timers := st.timers.eraseIdx i } t.callback

/-! ## The page as a transition system -/

/-- Everything that can happen to the page. -/
inductive Event where
  /-- The file input's `onChange`, with `e.target.files`. -/
  | filesSelected (selectedFiles : List File)
  | dragOver
  | dragLeave
  /-- A drop, with `e.dataTransfer.files`. -/
  | drop (droppedFiles : List File)
  /-- A click on the Clear button. -/
  | clearClick
  /-- A click on the upload button, with what the request will meet. -/
  | uploadClick (outcome : UploadOutcome)
  /-- A `BATCH_COMPLETE` message from the worker. -/
  | batchComplete (results : List (Nat × String))
  /-- An `ERROR` message from the worker. -/
  | workerError
  /-- The fallback loop stores the preview of its `i`-th file. -/
  | legacyPreview (startIndex i : Nat) (url : String)
  /-- The function `generatePreviews` lands in its `catch` block. -/
  | previewFailure
  /-- The `i`-th pending timer fires. -/
  | timer (i : Nat)
  deriving DecidableEq, Repr

/-- The state after one event.  A click on a disabled button does nothing. -/
def step (st : PageState) : Event → PageState
  | .filesSelected selectedFiles => handleFiles st selectedFiles
  | .dragOver => handleDragOver st
  | .dragLeave => handleDragLeave st
  | .drop droppedFiles => handleDrop st droppedFiles
  | .clearClick => if buttonsDisabled st then st else clearClicked st
  | .uploadClick outcome => if buttonsDisabled st then st else handleUpload st outcome
  | .batchComplete results => onBatchComplete st results
  | .workerError => onWorkerError st
  | .legacyPreview startIndex i url => legacyPreviewReady st startIndex i url
  | .previewFailure => generatePreviewsFailed st
  | .timer i => timerFires st i

/-- The state after a sequence of events. -/
def run (st : PageState) (events : List Event) : PageState :=
  events.foldl step st

/-! ## Sample inputs -/

/-- A JPEG photo. -/
def photo : File := { name := "a.jpg", type := "image/jpeg" }

/-- An MP4 clip. -/
def clip : File := { name := "clip.mp4", type := "video/mp4" }

/-- A text file. -/
def notes : File := { name := "notes.txt", type := "text/plain" }

/-- A Canon RAW file as a browser without a MIME mapping for it reports it. -/
def rawPhoto : File := { name := "IMG_0001.cr2", type := "" }

/-- A page that already holds `maxFiles` photos, with their previews. -/
def fullState : PageState :=
  { initialState with
    files := List.replicate 30 photo
    previews := List.replicate 30 (Preview.url "blob:p") }

/-! ## Admissible event sequences -/

/-- An event that writes previews only at indices the preview list already
has, and is not the failure path of `generatePreviews`. -/
def writesInRange (st : PageState) : Event → Bool
  | .batchComplete results => results.all fun r => decide (r.1 < st.previews.length)
  | .legacyPreview startIndex i _ => decide (startIndex + i < st.previews.length)
  | .previewFailure => false
  | _ => true

/-- A sequence of events each of which, in the state it meets, satisfies
`writesInRange`. -/
def allWritesInRange (st : PageState) : List Event → Bool
  | [] => true
  | e :: events => writesInRange st e && allWritesInRange (step st e) events

/-! ## Rounding -/

/-- The value `mathRoundDiv a b` is the integer nearest to `a / b`, a tie going
up: `m - 1/2 ≤ a / b < m + 1/2`, written without fractions. -/
theorem mathRoundDiv_nearest (a b : Nat) (hb : 0 < b) :
    2 * mathRoundDiv a b * b ≤ 2 * a + b ∧ 2 * a + b < 2 * (mathRoundDiv a b + 1) * b := by
  unfold mathRoundDiv
  have h2 : 0 < 2 * b := by omega
  constructor
  · have := Nat.div_mul_le_self (2 * a + b) (2 * b)
    calc 2 * ((2 * a + b) / (2 * b)) * b = (2 * a + b) / (2 * b) * (2 * b) := by ring
      _ ≤ 2 * a + b := this
  · have := Nat.lt_succ_self ((2 * a + b) / (2 * b))
    rw [Nat.div_lt_iff_lt_mul h2] at this
    calc 2 * a + b < ((2 * a + b) / (2 * b)).succ * (2 * b) := this
      _ = 2 * ((2 * a + b) / (2 * b) + 1) * b := by rw [Nat.succ_eq_add_one]; ring

/-- Rounding `a * 300 / b` with `a ≤ b` gives at most `300`. -/
theorem mathRoundDiv_le_max (a b : Nat) (hb : 0 < b) (hab : a ≤ b) :
    mathRoundDiv (a * MAX_SIZE) b ≤ MAX_SIZE := by
  unfold mathRoundDiv MAX_SIZE
  have h2 : 0 < 2 * b := by omega
  apply Nat.le_of_lt_succ
  rw [Nat.div_lt_iff_lt_mul h2]
  omega

/-- C10: for positive source dimensions the target size of `legacyCompressImage`
fits the 300 by 300 box, is the source size when that already fits, and
otherwise has its longer side at 300 and the other side at the proportional
value rounded to the nearest integer. -/
theorem legacyCompressImage_fits_box (w h : Nat) (hw : 0 < w) (hh : 0 < h) :
    (legacyCompressImage w h).1 ≤ 300 ∧ (legacyCompressImage w h).2 ≤ 300 ∧
    (w ≤ 300 ∧ h ≤ 300 → legacyCompressImage w h = (w, h)) ∧
    (¬ (w ≤ 300 ∧ h ≤ 300) →
      (h < w →
        legacyCompressImage w h = (300, mathRoundDiv (h * 300) w) ∧
        2 * (legacyCompressImage w h).2 * w ≤ 2 * (h * 300) + w ∧
        2 * (h * 300) + w < 2 * ((legacyCompressImage w h).2 + 1) * w) ∧
      (w ≤ h →
        legacyCompressImage w h = (mathRoundDiv (w * 300) h, 300) ∧
        2 * (legacyCompressImage w h).1 * h ≤ 2 * (w * 300) + h ∧
        2 * (w * 300) + h < 2 * ((legacyCompressImage w h).1 + 1) * h)) := by
  have r1 := mathRoundDiv_nearest (h * 300) w hw
  have r2 := mathRoundDiv_nearest (w * 300) h hh
  have b1 : h ≤ w → mathRoundDiv (h * 300) w ≤ 300 := mathRoundDiv_le_max h w hw
  have b2 : w ≤ h → mathRoundDiv (w * 300) h ≤ 300 := mathRoundDiv_le_max w h hh
  unfold legacyCompressImage
  simp only [MAX_SIZE]
  by_cases c1 : w > h ∧ w > 300
  · rw [if_pos c1]
    have := b1 (by omega)
    refine ⟨by simp, by simpa using this, fun hc => by omega, fun _ => ⟨fun _ => ⟨rfl, r1.1, r1.2⟩, fun hc => by omega⟩⟩
  · rw [if_neg c1]
    by_cases c2 : h > 300
    · rw [if_pos c2]
      have := b2 (by omega)
      refine ⟨by simpa using this, by simp, fun hc => by omega, fun _ => ⟨fun hc => by omega, fun _ => ⟨rfl, r2.1, r2.2⟩⟩⟩
    · rw [if_neg c2]
      refine ⟨by simp; omega, by simp; omega, fun _ => rfl, fun hc => by omega⟩

/-- Witness for C10: a 4000 by 3000 photo is scaled to 300 by 225. -/
theorem legacyCompressImage_fits_box_witness :
    (0 < 4000 ∧ 0 < 3000) ∧ legacyCompressImage 4000 3000 = (300, 225) ∧
    (legacyCompressImage 4000 3000).1 ≤ 300 ∧ (legacyCompressImage 4000 3000).2 ≤ 300 :=
  ⟨⟨by decide, by decide⟩, by decide,
    (legacyCompressImage_fits_box 4000 3000 (by decide) (by decide)).1,
    (legacyCompressImage_fits_box 4000 3000 (by decide) (by decide)).2.1⟩

/-! ## The accepted-file filter -/

/-- A string that starts with `p ++ q` starts with `p`. -/
theorem startsWith_of_startsWith_append (s p q : String)
    (h : startsWith s (p ++ q) = true) : startsWith s p = true := by
  unfold startsWith at *
  rw [ List.isPrefixOf_iff_prefix] at *
  rw [String.data_append] at h
  exact (List.prefix_append p.data q.data).trans h

/-- C9: `isValidFileType` looks at the MIME type only, and accepts exactly the
types that start with `image/` and the six listed video types. -/
theorem isValidFileType_iff (file : File) :
    isValidFileType file = true ↔
      (startsWith file.type "image/" = true ∨
        file.type ∈ ["video/mp4", "video/quicktime", "video/x-msvideo",
          "video/x-matroska", "video/avi", "video/mpeg"]) := by
  have e1 := startsWith_of_startsWith_append file.type "image/" "x-canon-cr2"
  have e2 := startsWith_of_startsWith_append file.type "image/" "x-nikon-nef"
  have e3 := startsWith_of_startsWith_append file.type "image/" "x-sony-arw"
  have e4 := startsWith_of_startsWith_append file.type "image/" "x-adobe-dng"
  have e5 := startsWith_of_startsWith_append file.type "image/" "x-fuji-raf"
  have e6 := startsWith_of_startsWith_append file.type "image/" "x-panasonic-rw2"
  have a1 : "image/" ++ "x-canon-cr2" = "image/x-canon-cr2" := by decide
  have a2 : "image/" ++ "x-nikon-nef" = "image/x-nikon-nef" := by decide
  have a3 : "image/" ++ "x-sony-arw" = "image/x-sony-arw" := by decide
  have a4 : "image/" ++ "x-adobe-dng" = "image/x-adobe-dng" := by decide
  have a5 : "image/" ++ "x-fuji-raf" = "image/x-fuji-raf" := by decide
  have a6 : "image/" ++ "x-panasonic-rw2" = "image/x-panasonic-rw2" := by decide
  rw [a1] at e1; rw [a2] at e2; rw [a3] at e3; rw [a4] at e4; rw [a5] at e5; rw [a6] at e6
  unfold isValidFileType supportedImageTypes supportedVideoTypes
  simp only [List.any_cons, List.any_nil, Bool.or_false, Bool.or_eq_true, List.contains, List.elem_iff]
  constructor
  · intro h
    rcases h with h | h | h | h | h | h | h <;> rcases h with h | h <;>
      first
      | exact Or.inr h
      | exact Or.inl h
      | exact Or.inl (e1 h)
      | exact Or.inl (e2 h)
      | exact Or.inl (e3 h)
      | exact Or.inl (e4 h)
      | exact Or.inl (e5 h)
      | exact Or.inl (e6 h)
  · intro h
    rcases h with h | h
    · exact Or.inl (Or.inl h)
    · exact Or.inl (Or.inr h)

/-! ## File selection -/

/-- The state `handleFiles` leaves when no slot is free. -/
theorem handleFiles_full (st : PageState) (selectedFiles : List File)
    (h : maxFiles ≤ st.files.length) :
    handleFiles st selectedFiles =
      { st with
        error := "You can only upload at most 30 files"
        timers := st.timers ++ [{ delay := 3000, callback := Callback.clearError }] } := by
  have hslots : (maxFiles : Int) - (st.files.length : Int) ≤ 0 := by omega
  have hmsg : "You can only upload at most " ++ toString maxFiles ++ " files"
      = "You can only upload at most 30 files" := by decide
  unfold handleFiles
  simp only [hslots, if_true, hmsg]

/-- The state `handleFiles` leaves when a slot is free: the first
`maxFiles - files.length` valid files are appended, each with a placeholder
preview, and the error is set when valid files were left over. -/
theorem handleFiles_free (st : PageState) (selectedFiles : List File)
    (h : st.files.length < maxFiles) :
    handleFiles st selectedFiles =
      { st with
        files := st.files ++
          (selectedFiles.filter isValidFileType).take (maxFiles - st.files.length)
        previews := st.previews ++ List.replicate
          ((selectedFiles.filter isValidFileType).take (maxFiles - st.files.length)).length
          Preview.null
        isGeneratingPreview := true
        error :=
          if maxFiles - st.files.length < (selectedFiles.filter isValidFileType).length then
            "The exceeded " ++ toString (maxFiles - st.files.length) ++
              " files have been removed"
          else st.error
        timers :=
          if maxFiles - st.files.length < (selectedFiles.filter isValidFileType).length then
            st.timers ++ [{ delay := 3000, callback := Callback.clearError }]
          else st.timers } := by
  have hslots : ¬ ((maxFiles : Int) - (st.files.length : Int) ≤ 0) := by omega
  have hnat : ((maxFiles : Int) - (st.files.length : Int)).toNat = maxFiles - st.files.length := by
    omega
  have hint : ((maxFiles : Int) - (st.files.length : Int)) = ((maxFiles - st.files.length : Nat) : Int) := by
    omega
  have hstr : toString ((maxFiles : Int) - (st.files.length : Int))
      = toString (maxFiles - st.files.length) := by
    rw [hint]; rfl
  unfold handleFiles generatePreviews
  simp only [hslots, if_false, hnat, hstr]
  by_cases hc : maxFiles - st.files.length < (selectedFiles.filter isValidFileType).length
  · have hc2 : ((selectedFiles.filter isValidFileType).length : Int)
        > (maxFiles : Int) - (st.files.length : Int) := by omega
    simp only [hc, hc2, if_true]
  · have hc2 : ¬ (((selectedFiles.filter isValidFileType).length : Int)
        > (maxFiles : Int) - (st.files.length : Int)) := by omega
    simp only [hc, hc2, if_false]

/-- C8: with a free slot `handleFiles` appends the first `30 - fs.length` valid
files of the selection in their order; with none it leaves the file list and
the preview list alone and sets the error to "You can only upload at most 30
files". -/
theorem handleFiles_appends_first_free_slots (st : PageState) (selectedFiles : List File) :
    (st.files.length < 30 →
      (handleFiles st selectedFiles).files =
        st.files ++ (selectedFiles.filter isValidFileType).take (30 - st.files.length)) ∧
    (30 ≤ st.files.length →
      (handleFiles st selectedFiles).files = st.files ∧
      (handleFiles st selectedFiles).previews = st.previews ∧
      (handleFiles st selectedFiles).error = "You can only upload at most 30 files") := by
  constructor
  · intro h
    rw [handleFiles_free st selectedFiles h]
    rfl
  · intro h
    rw [handleFiles_full st selectedFiles h]
    exact ⟨rfl, rfl, rfl⟩

/-- C8 witness: on the empty page a photo, a text file and a clip leave the
photo and the clip; on a page with 30 photos a further photo is refused. -/
theorem handleFiles_appends_first_free_slots_witness :
    (initialState.files.length < 30 ∧
      (handleFiles initialState [photo, notes, clip]).files = [photo, clip]) ∧
    (30 ≤ fullState.files.length ∧
      (handleFiles fullState [photo]).files = fullState.files ∧
      (handleFiles fullState [photo]).previews = fullState.previews ∧
      (handleFiles fullState [photo]).error = "You can only upload at most 30 files") :=
  ⟨⟨by decide,
    (handleFiles_appends_first_free_slots initialState [photo, notes, clip]).1 (by decide)⟩,
   ⟨by decide, (handleFiles_appends_first_free_slots fullState [photo]).2 (by decide)⟩⟩

/-! ## The file count -/

/-- One call of `handleFiles` keeps the file count within `maxFiles`. -/
theorem handleFiles_length_le (st : PageState) (selectedFiles : List File)
    (h : st.files.length ≤ maxFiles) :
    (handleFiles st selectedFiles).files.length ≤ maxFiles := by
  by_cases hfull : maxFiles ≤ st.files.length
  · rw [handleFiles_full st selectedFiles hfull]
    exact h
  · rw [handleFiles_free st selectedFiles (by omega)]
    simp only [List.length_append, List.length_take]
    omega

/-- Running a timer callback keeps the file count within `maxFiles`. -/
theorem timerFires_length_le (st : PageState) (i : Nat)
    (h : st.files.length ≤ maxFiles) :
    (timerFires st i).files.length ≤ maxFiles := by
  unfold timerFires
  cases st.timers.get? i with
  | none => exact h
  | some t =>
    cases t with
    | mk delay callback =>
      cases callback
      · exact h
      · exact Nat.zero_le _

/-- The upload handler does not touch the file list. -/
theorem handleUpload_files (st : PageState) (outcome : UploadOutcome) :
    (handleUpload st outcome).files = st.files := by
  unfold handleUpload
  split
  · rfl
  · cases outcome <;> rfl

/-- One event keeps the file count within `maxFiles`. -/
theorem step_length_le (st : PageState) (e : Event) (h : st.files.length ≤ maxFiles) :
    (step st e).files.length ≤ maxFiles := by
  cases e with
  | filesSelected selectedFiles => exact handleFiles_length_le st selectedFiles h
  | dragOver => exact h
  | dragLeave => exact h
  | drop droppedFiles => exact handleFiles_length_le _ droppedFiles h
  | clearClick =>
    simp only [step]
    split
    · exact h
    · exact Nat.zero_le _
  | uploadClick outcome =>
    simp only [step]
    split
    · exact h
    · rw [handleUpload_files]; exact h
  | batchComplete results => exact h
  | workerError => exact h
  | legacyPreview startIndex i url => exact h
  | previewFailure => exact h
  | timer i => exact timerFires_length_le st i h

/-- A sequence of events keeps the file count within `maxFiles`. -/
theorem run_length_le (events : List Event) (st : PageState)
    (h : st.files.length ≤ maxFiles) :
    (run st events).files.length ≤ maxFiles := by
  induction events generalizing st with
  | nil => exact h
  | cons e events ih => exact ih (step st e) (step_length_le st e h)

/-- C1: after any sequence of events from the initial state (file selections,
drops, Clear, the reset after an upload, and every other event of the page)
the stored file list has at most 30 entries. -/
theorem file_count_never_exceeds_max (events : List Event) :
    (run initialState events).files.length ≤ 30 :=
  run_length_le events initialState (Nat.zero_le _)

/-! ## Previews against files -/

/-- C2 counterexample: reachable states in which the two lists differ in
length.  A preview that arrives after Clear is stored in the emptied list (one
preview, no file); a result whose index lies past the end grows the list (six
previews, one file); the failure path of `generatePreviews` empties the preview
list and keeps the files (no preview, one file). -/
theorem previews_length_ne_files_length :
    ((run initialState
        [.filesSelected [photo], .clearClick, .batchComplete [(0, "blob:1")]]).previews.length = 1 ∧
      (run initialState
        [.filesSelected [photo], .clearClick, .batchComplete [(0, "blob:1")]]).files.length = 0) ∧
    ((run initialState
        [.filesSelected [photo], .batchComplete [(5, "blob:1")]]).previews.length = 6 ∧
      (run initialState
        [.filesSelected [photo], .batchComplete [(5, "blob:1")]]).files.length = 1) ∧
    ((run initialState [.filesSelected [photo], .previewFailure]).previews.length = 0 ∧
      (run initialState [.filesSelected [photo], .previewFailure]).files.length = 1) := by
  decide

/-- A write inside the array keeps its length. -/
theorem arraySet_length (arr : List Preview) (index : Nat) (v : Preview)
    (h : index < arr.length) : (arraySet arr index v).length = arr.length := by
  unfold arraySet
  rw [if_pos h, List.length_set]

/-- A batch of writes inside the array keeps its length. -/
theorem batch_length (results : List (Nat × String)) (arr : List Preview)
    (h : ∀ r ∈ results, r.1 < arr.length) :
    (results.foldl (fun newPreviews r => arraySet newPreviews r.1 (Preview.url r.2))
      arr).length = arr.length := by
  induction results generalizing arr with
  | nil => rfl
  | cons r results ih =>
    have hr : r.1 < arr.length := h r (List.mem_cons_self _ _)
    have hlen := arraySet_length arr r.1 (Preview.url r.2) hr
    rw [List.foldl_cons, ih, hlen]
    intro r2 hr2
    rw [hlen]
    exact h r2 (List.mem_cons_of_mem _ hr2)

/-- One call of `handleFiles` keeps the two lists at the same length. -/
theorem handleFiles_lengths (st : PageState) (selectedFiles : List File)
    (h : st.previews.length = st.files.length) :
    (handleFiles st selectedFiles).previews.length =
      (handleFiles st selectedFiles).files.length := by
  by_cases hfull : maxFiles ≤ st.files.length
  · rw [handleFiles_full st selectedFiles hfull]
    exact h
  · rw [handleFiles_free st selectedFiles (by omega)]
    simp only [List.length_append, List.length_replicate]
    omega

/-- The upload handler does not touch the preview list. -/
theorem handleUpload_previews (st : PageState) (outcome : UploadOutcome) :
    (handleUpload st outcome).previews = st.previews := by
  unfold handleUpload
  split
  · rfl
  · cases outcome <;> rfl

/-- Running a timer callback keeps the two lists at the same length. -/
theorem timerFires_lengths (st : PageState) (i : Nat)
    (h : st.previews.length = st.files.length) :
    (timerFires st i).previews.length = (timerFires st i).files.length := by
  unfold timerFires
  cases st.timers.get? i with
  | none => exact h
  | some t =>
    cases t with
    | mk delay callback =>
      cases callback
      · exact h
      · rfl

/-- One event whose writes are in range keeps the two lists at the same
length. -/
theorem step_lengths (st : PageState) (e : Event)
    (h : st.previews.length = st.files.length) (hr : writesInRange st e = true) :
    (step st e).previews.length = (step st e).files.length := by
  cases e with
  | filesSelected selectedFiles => exact handleFiles_lengths st selectedFiles h
  | dragOver => exact h
  | dragLeave => exact h
  | drop droppedFiles => exact handleFiles_lengths _ droppedFiles h
  | clearClick =>
    simp only [step]
    split
    · exact h
    · rfl
  | uploadClick outcome =>
    simp only [step]
    split
    · exact h
    · rw [handleUpload_previews, handleUpload_files]; exact h
  | batchComplete results =>
    simp only [writesInRange, List.all_eq_true, decide_eq_true_eq] at hr
    simp only [step, onBatchComplete]
    rw [batch_length results st.previews hr]
    exact h
  | workerError => exact h
  | legacyPreview startIndex i url =>
    simp only [writesInRange, decide_eq_true_eq] at hr
    simp only [step, legacyPreviewReady]
    rw [arraySet_length _ _ _ hr]
    exact h
  | previewFailure => simp [writesInRange] at hr
  | timer i => exact timerFires_lengths st i h

/-- A sequence of events whose writes are in range keeps the two lists at the
same length. -/
theorem run_lengths (events : List Event) (st : PageState)
    (h : st.previews.length = st.files.length) (hr : allWritesInRange st events = true) :
    (run st events).previews.length = (run st events).files.length := by
  induction events generalizing st with
  | nil => exact h
  | cons e events ih =>
    simp only [allWritesInRange, Bool.and_eq_true] at hr
    exact ih (step st e) (step_lengths st e h hr.1) hr.2

/-- C2, amended: in every state reached from the initial state by events that
store previews only at indices the preview list already has (and without the
failure path of `generatePreviews`), the preview list is as long as the file
list. -/
theorem previews_length_eq_files_length (events : List Event)
    (hr : allWritesInRange initialState events = true) :
    (run initialState events).previews.length = (run initialState events).files.length :=
  run_lengths events initialState rfl hr

/-- C2 witness: two files are selected, the worker delivers both previews, a
third file is selected and the worker delivers its preview at index 2: three
previews for three files. -/
theorem previews_length_eq_files_length_witness :
    allWritesInRange initialState
      [.filesSelected [photo, clip], .batchComplete [(0, "blob:1"), (1, "blob:2")],
        .drop [photo], .batchComplete [(2, "blob:3")]] = true ∧
    (run initialState
      [.filesSelected [photo, clip], .batchComplete [(0, "blob:1"), (1, "blob:2")],
        .drop [photo], .batchComplete [(2, "blob:3")]]).files.length = 3 ∧
    (run initialState
      [.filesSelected [photo, clip], .batchComplete [(0, "blob:1"), (1, "blob:2")],
        .drop [photo], .batchComplete [(2, "blob:3")]]).previews.length =
    (run initialState
      [.filesSelected [photo, clip], .batchComplete [(0, "blob:1"), (1, "blob:2")],
        .drop [photo], .batchComplete [(2, "blob:3")]]).files.length :=
  ⟨by decide, by decide, previews_length_eq_files_length _ (by decide)⟩

/-! ## Upload -/

/-- The timer appended last is the one at the old length of the queue. -/
theorem get?_append_last (timers : List Timer) (t : Timer) :
    (timers ++ [t]).get? timers.length = some t := by
  simp

/-- Removing the timer appended last gives back the old queue. -/
theorem eraseIdx_append_last (timers : List Timer) (t : Timer) :
    (timers ++ [t]).eraseIdx timers.length = timers := by
  induction timers with
  | nil => rfl
  | cons t0 timers ih => simpa using ih

/-- C5: with files selected and an OK response carrying the counts `s` and `t`,
`handleUpload` sets the progress to 100 and the success message to
"Successfully uploaded s of t photos!", leaves files and previews as they are
and schedules the reset; the reset, when its timer fires, empties the success
message, the files and the previews and zeroes the progress. -/
theorem handleUpload_reports_counts_then_resets (st : PageState) (s t : Nat)
    (h : st.files ≠ []) :
    (handleUpload st (.ok s t)).progress = 100 ∧
    (handleUpload st (.ok s t)).success =
      "Successfully uploaded " ++ toString s ++ " of " ++ toString t ++ " photos!" ∧
    (handleUpload st (.ok s t)).files = st.files ∧
    (handleUpload st (.ok s t)).previews = st.previews ∧
    (handleUpload st (.ok s t)).timers =
      st.timers ++ [{ delay := 2000, callback := Callback.resetAfterUpload }] ∧
    (timerFires (handleUpload st (.ok s t)) st.timers.length).success = "" ∧
    (timerFires (handleUpload st (.ok s t)) st.timers.length).files = [] ∧
    (timerFires (handleUpload st (.ok s t)) st.timers.length).previews = [] ∧
    (timerFires (handleUpload st (.ok s t)) st.timers.length).progress = 0 ∧
    (timerFires (handleUpload st (.ok s t)) st.timers.length).timers = st.timers := by
  have hlen : ¬ st.files.length = 0 := by
    intro h0
    exact h (List.length_eq_zero.mp h0)
  have hup : handleUpload st (.ok s t) =
      { st with
        progress := 100
        success := "Successfully uploaded " ++ toString s ++ " of " ++ toString t ++ " photos!"
        timers := st.timers ++ [{ delay := 2000, callback := Callback.resetAfterUpload }] } := by
    unfold handleUpload
    rw [if_neg hlen]
  rw [hup]
  refine ⟨rfl, rfl, rfl, rfl, rfl, ?_⟩
  unfold timerFires
  simp only [get?_append_last, eraseIdx_append_last, runCallback, and_self]

/-- C5 witness: two photos, of which the server reports one stored. -/
theorem handleUpload_reports_counts_then_resets_witness :
    (run initialState [.filesSelected [photo, photo]]).files ≠ [] ∧
    (handleUpload (run initialState [.filesSelected [photo, photo]]) (.ok 1 2)).success =
      "Successfully uploaded 1 of 2 photos!" ∧
    (handleUpload (run initialState [.filesSelected [photo, photo]]) (.ok 1 2)).files =
      [photo, photo] :=
  ⟨by decide,
    (handleUpload_reports_counts_then_resets
      (run initialState [.filesSelected [photo, photo]]) 1 2 (by decide)).2.1,
    (handleUpload_reports_counts_then_resets
      (run initialState [.filesSelected [photo, photo]]) 1 2 (by decide)).2.2.1⟩

/-! ## Error messages -/

/-- The slot-limit message for left-over files is not the empty string. -/
theorem exceeded_message_ne_empty (n : Nat) :
    "The exceeded " ++ toString n ++ " files have been removed" ≠ "" := by
  intro h
  have hlen := congrArg String.length h
  simp only [String.length_append] at hlen
  have h13 : "The exceeded ".length = 13 := by decide
  have h0 : "".length = 0 := by decide
  rw [h13, h0] at hlen
  omega

/-- C6 counterexample: a text file is rejected by `isValidFileType`, and
selecting it on the empty page leaves the error message empty (and stores
nothing). -/
theorem handleFiles_rejected_file_no_error :
    isValidFileType notes = false ∧
    (handleFiles initialState [notes]).error = "" ∧
    (handleFiles initialState [notes]).files = [] ∧
    (handleFiles initialState [notes]).timers = [] := by
  decide

/-- C6, amended: the error message after `handleFiles` is non-empty exactly
when no slot is free, or the valid files outnumber the free slots, or the
message was non-empty before the call; a rejected file is dropped without a
message. -/
theorem handleFiles_error_iff (st : PageState) (selectedFiles : List File) :
    (handleFiles st selectedFiles).error ≠ "" ↔
      (maxFiles ≤ st.files.length ∨
        maxFiles - st.files.length < (selectedFiles.filter isValidFileType).length ∨
        st.error ≠ "") := by
  by_cases hfull : maxFiles ≤ st.files.length
  · rw [handleFiles_full st selectedFiles hfull]
    constructor
    · intro _; exact Or.inl hfull
    · intro _
      show "You can only upload at most 30 files" ≠ ""
      decide
  · rw [handleFiles_free st selectedFiles (by omega)]
    by_cases hc : maxFiles - st.files.length < (selectedFiles.filter isValidFileType).length
    · simp only [hc, if_true]
      constructor
      · intro _; exact Or.inr (Or.inl trivial)
      · intro _; exact exceeded_message_ne_empty _
    · simp only [hc, if_false]
      constructor
      · intro h; exact Or.inr (Or.inr h)
      · intro h
        rcases h with h | h | h
        · exact absurd h hfull
        · exact absurd h (by simp)
        · exact h

/-- C3 evaluation: on the empty page a selection of 31 photos leaves one photo
over, and the message names 30, the number of free slots. -/
theorem handleFiles_exceeded_message_names_slots :
    ((List.replicate 31 photo).filter isValidFileType).length = 31 ∧
    maxFiles - initialState.files.length = 30 ∧
    (handleFiles initialState (List.replicate 31 photo)).files.length = 30 ∧
    (handleFiles initialState (List.replicate 31 photo)).error =
      "The exceeded 30 files have been removed" := by
  decide

/-- C4 evaluation: a file named `IMG_0001.cr2` with the empty MIME type ends in
the listed extension `.cr2`, is rejected by `isValidFileType`, and is not kept
by `handleFiles`. -/
theorem isValidFileType_rejects_raw_extension :
    ".cr2" ∈ rawFileExtensions ∧
    endsWith rawPhoto.name ".cr2" = true ∧
    rawPhoto.type = "" ∧
    isValidFileType rawPhoto = false ∧
    (handleFiles initialState [rawPhoto]).files = [] := by
  decide

/-- The slot-limit paths of `handleFiles` start the timer that clears the
error. -/
theorem handleFiles_error_has_timer (st : PageState) (selectedFiles : List File)
    (h : (handleFiles st selectedFiles).error ≠ st.error) :
    (handleFiles st selectedFiles).timers =
      st.timers ++ [{ delay := 3000, callback := Callback.clearError }] := by
  by_cases hfull : maxFiles ≤ st.files.length
  · rw [handleFiles_full st selectedFiles hfull]
  · rw [handleFiles_free st selectedFiles (by omega)] at h ⊢
    by_cases hc : maxFiles - st.files.length < (selectedFiles.filter isValidFileType).length
    · simp only [hc, if_true]
    · simp only [hc, if_false] at h
      exact absurd rfl h

/-- The error paths of `handleUpload` start the timer that clears the error. -/
theorem handleUpload_error_has_timer (st : PageState) (outcome : UploadOutcome)
    (h : (handleUpload st outcome).error ≠ st.error) :
    (handleUpload st outcome).timers =
      st.timers ++ [{ delay := 3000, callback := Callback.clearError }] := by
  unfold handleUpload at h ⊢
  split
  · rfl
  · rename_i hlen
    rw [if_neg hlen] at h
    cases outcome with
    | ok successful total => exact absurd rfl h
    | fetchRejected message => rfl
    | notOk => rfl
    | jsonRejected message => rfl
    | noData message => rfl

/-- The two preview error paths leave the timer queue as it was. -/
theorem preview_errors_keep_timers (st : PageState) :
    (onWorkerError st).timers = st.timers ∧
    (onWorkerError st).error = "Failed to generate some previews" ∧
    (generatePreviewsFailed st).timers = st.timers ∧
    (generatePreviewsFailed st).error = "Failed to generate previews" :=
  ⟨rfl, rfl, rfl, rfl⟩

/-- C7 evaluation: the worker's `ERROR` handler and the failure path of
`generatePreviews` set a non-empty error message and start no timer, so no
timer event changes the state they leave. -/
theorem preview_errors_have_no_timer :
    ((step initialState .workerError).error = "Failed to generate some previews" ∧
      (step initialState .workerError).timers = [] ∧
      ∀ i, (timerFires (step initialState .workerError) i).error
        = "Failed to generate some previews") ∧
    ((step initialState .previewFailure).error = "Failed to generate previews" ∧
      (step initialState .previewFailure).timers = [] ∧
      ∀ i, (timerFires (step initialState .previewFailure) i).error
        = "Failed to generate previews") := by
  refine ⟨⟨rfl, rfl, fun i => ?_⟩, ⟨rfl, rfl, fun i => ?_⟩⟩ <;> rfl

end UploadPhotos
